import Mathlib

/-!
Verification development for the Slurm "resume" plugin
(`src/slurm_plugin/resume.py` of aws-parallelcluster-node).

The Python module is shallowly embedded:

* the parsed `[slurm_resume]` section of the configuration file is an
  association list `List (String × String)` (configparser lower-cases
  option names, modelled by `optionLookup`);
* fallible Python code becomes `Except Exc _`, where `Exc` models the
  Python exception values that a `try/except Exception` handler can catch;
* the external collaborators (file system, `get_nodes_info`,
  `InstanceLauncher`, `set_nodes_down_and_power_save`, `fileConfig`) are an
  oracle structure `World`, so theorems quantify over every behaviour of
  those collaborators, including their raising arbitrary exceptions;
* observable actions (log records, scheduler node-state mutation attempts,
  resolver and provisioning invocations) are accumulated in a trace of
  `Event`s, returned alongside the `Except` result.
-/

deriving instance DecidableEq for Except

/-- Python exception values, as far as the module distinguishes them.
`Exc.ioError` models `IOError`, `Exc.noOptionError` the configparser
`NoSectionError`/`NoOptionError` raised by `get` without fallback,
`Exc.valueError` the `ValueError` raised by `getint`/`getboolean` on a
present-but-malformed value, and `Exc.err` any other exception derived
from `Exception`. -/
inductive Exc where
  | ioError : Exc
  | noOptionError : String → Exc
  | valueError : String → Exc
  | err : String → Exc
deriving DecidableEq, Repr

/-- A node record returned by `get_nodes_info`; the module only reads
its `name` attribute (`resume.py` line 111). -/
structure NodeInfo where
  name : String
deriving DecidableEq, Repr

/-- The argument Python passes to `set_nodes_down_and_power_save` is
duck-typed: the raw request expression string (`main`, line 147) or a
resolved list of node names (`_resume`, line 119). -/
inductive NodeArg where
  | expr : String → NodeArg
  | names : List String → NodeArg
deriving DecidableEq, Repr

/-- The botocore `Config(**self._boto3_config)` object built at
`resume.py` lines 62-67: a retries dict with `max_attempts` and `mode`,
plus an optional `proxies` entry `{"https": proxy}`. -/
structure Boto3Config where
  retries_max_attempts : Nat
  retries_mode : String
  proxies : Option (String × String)
deriving DecidableEq, Repr

/-- The attributes `SlurmResumeConfig._get_config` stores on the
configuration object (`resume.py` lines 53-68). -/
structure SlurmResumeConfig where
  region : String
  cluster_name : String
  max_batch_size : Int
  update_node_address : Bool
  boto3_config : Boto3Config
  logging_config : String
deriving DecidableEq, Repr

/-- `SlurmResumeConfig.DEFAULTS["max_retry"]` (`resume.py` line 28). -/
def DEFAULTS_max_retry : Nat := 5

/-- `SlurmResumeConfig.DEFAULTS["max_batch_size"]` (`resume.py` line 29). -/
def DEFAULTS_max_batch_size : Int := 100

/-- `SlurmResumeConfig.DEFAULTS["update_node_address"]` (line 30). -/
def DEFAULTS_update_node_address : Bool := true

/-- `SlurmResumeConfig.DEFAULTS["proxy"]` (`resume.py` line 31): note the
upper-case literal. -/
def DEFAULTS_proxy : String := "NONE"

/-- `SlurmResumeConfig.DEFAULTS["logging_config"]` (`resume.py` line 32):
`os.path.join(os.path.dirname(__file__), "logging",
"parallelcluster_resume_logging.conf")`, a path inside the installed
package; the concrete directory prefix is immaterial to the claims. -/
def DEFAULTS_logging_config : String :=
  "slurm_plugin/logging/parallelcluster_resume_logging.conf"

/-- `CONFIG_FILE_DIR`, imported from `slurm_plugin.common` (that module is
outside `src/`; only the constant's use as a path prefix matters). -/
def CONFIG_FILE_DIR : String := "/etc/parallelcluster/slurm_plugin"

/-- The configuration path built in `main` (`resume.py` line 127). -/
def slurmResumeConfPath : String :=
  CONFIG_FILE_DIR ++ "/parallelcluster_slurm_resume.conf"

/-- The fixed fallback log destination of `main` (`resume.py` line 132). -/
def DEFAULT_LOG_FILE : String := "/var/log/parallelcluster/slurm_resume.log"

/-- The `reason` string passed to `set_nodes_down_and_power_save`
(`resume.py` line 89). -/
def resumeFailureReason : String := "Failure when resuming nodes"

/-- ASCII lower-casing of a string, one character at a time (the kernel
can evaluate this, unlike `String.toLower`); models Python's `str.lower`
on the ASCII option names and boolean literals used here. -/
def lowerStr (s : String) : String := String.mk (s.data.map Char.toLower)

/-- configparser option lookup: option names are case-insensitive
(configparser's `optionxform` lower-cases them). -/
def optionLookup (config : List (String × String)) (opt : String) : Option String :=
  (config.find? (fun kv => lowerStr kv.1 == lowerStr opt)).map (fun kv => kv.2)

/-- `ConfigParser.get(section, option)` without fallback: raises when the
section or option is missing. -/
def configGet (config : List (String × String)) (opt : String) : Except Exc String :=
  match optionLookup config opt with
  | some v => Except.ok v
  | none => Except.error (Exc.noOptionError opt)

/-- `ConfigParser.get(section, option, fallback=fb)`: returns the fallback
when the section or option is missing, never raises. -/
def configGetD (config : List (String × String)) (opt : String) (fb : String) : String :=
  (optionLookup config opt).getD fb

/-- Digits of a decimal literal folded to a number. -/
def decDigitsToNat (l : List Char) : Option Nat :=
  if l ≠ [] ∧ l.all Char.isDigit then
    some (l.foldl (fun acc c => 10 * acc + (c.toNat - 48)) 0)
  else none

/-- Surrounding-whitespace removal on the character list (the kernel can
evaluate this, unlike `String.trim`). -/
def stripChars (l : List Char) : List Char :=
  ((l.dropWhile Char.isWhitespace).reverse.dropWhile Char.isWhitespace).reverse

/-- Python's `int(s)` on a decimal string: optional surrounding
whitespace, optional sign, then digits; anything else raises
`ValueError`. -/
def pyParseInt (s : String) : Option Int :=
  match stripChars s.data with
  | '-' :: rest => (decDigitsToNat rest).map (fun n => -(n : Int))
  | '+' :: rest => (decDigitsToNat rest).map (fun n => (n : Int))
  | l => (decDigitsToNat l).map (fun n => (n : Int))

/-- configparser's `BOOLEAN_STATES`: the only strings `getboolean`
accepts, case-insensitively. -/
def pyParseBool (s : String) : Option Bool :=
  let t := lowerStr s
  if t = "1" ∨ t = "yes" ∨ t = "true" ∨ t = "on" then some true
  else if t = "0" ∨ t = "no" ∨ t = "false" ∨ t = "off" then some false
  else none

/-- `ConfigParser.getint(section, option, fallback=fb)`: the fallback is
used only when the option is missing; a present but unparseable value
raises `ValueError`. -/
def configGetInt (config : List (String × String)) (opt : String) (fb : Int) :
    Except Exc Int :=
  match optionLookup config opt with
  | none => Except.ok fb
  | some v =>
    match pyParseInt v with
    | some n => Except.ok n
    | none => Except.error (Exc.valueError v)

/-- `ConfigParser.getboolean(section, option, fallback=fb)`: fallback only
when missing; a present but unrecognised value raises `ValueError`. -/
def configGetBool (config : List (String × String)) (opt : String) (fb : Bool) :
    Except Exc Bool :=
  match optionLookup config opt with
  | none => Except.ok fb
  | some v =>
    match pyParseBool v with
    | some b => Except.ok b
    | none => Except.error (Exc.valueError v)

/-- The value-level part of `SlurmResumeConfig._get_config`
(`resume.py` lines 53-68), applied to the parsed `[slurm_resume]`
section: reads `region` and `cluster_name` without fallback, the optional
keys with their `DEFAULTS` fallbacks, builds the boto3 config with a
5-attempt standard retry mode and a `proxies` entry exactly when the
proxy value differs from `"NONE"`. -/
def getConfigVal (config : List (String × String)) : Except Exc SlurmResumeConfig :=
  match configGet config "region" with
  | Except.error e => Except.error e
  | Except.ok region =>
    match configGet config "cluster_name" with
    | Except.error e => Except.error e
    | Except.ok cluster_name =>
      match configGetInt config "max_batch_size" DEFAULTS_max_batch_size with
      | Except.error e => Except.error e
      | Except.ok max_batch_size =>
        match configGetBool config "update_node_address" DEFAULTS_update_node_address with
        | Except.error e => Except.error e
        | Except.ok update_node_address =>
          let proxy := configGetD config "proxy" DEFAULTS_proxy
          let boto3_config : Boto3Config :=
            { retries_max_attempts := DEFAULTS_max_retry
              retries_mode := "standard"
              proxies := if proxy ≠ "NONE" then some ("https", proxy) else none }
          let logging_config := configGetD config "logging_config" DEFAULTS_logging_config
          Except.ok
            { region := region
              cluster_name := cluster_name
              max_batch_size := max_batch_size
              update_node_address := update_node_address
              boto3_config := boto3_config
              logging_config := logging_config }

example :
    getConfigVal [("region", "us-east-1"), ("cluster_name", "c")] =
      Except.ok
        { region := "us-east-1"
          cluster_name := "c"
          max_batch_size := 100
          update_node_address := true
          boto3_config :=
            { retries_max_attempts := 5, retries_mode := "standard", proxies := none }
          logging_config := DEFAULTS_logging_config } := by decide

example :
    getConfigVal [("region", "r"), ("cluster_name", "c"), ("max_batch_size", "abc")] =
      Except.error (Exc.valueError "abc") := by decide

/-- Observable actions of one run, in program order: the log records the
module emits, and the calls it makes into its external collaborators. -/
inductive Event where
  | logReadingConfig : String → Event
  | logCannotReadConfig : String → Event
  | logConfigRepr : Event
  | fileConfigCall : String → Event
  | basicConfigCall : String → Event
  | logUnableToConfigureLogging : String → Event
  | logLaunchingFor : String → Event
  | getNodesInfoCall : String → Event
  | logRetrievedNodelist : List String → Event
  | addInstancesCall : List String → Event
  | logSuccessNodes : List String → Event
  | logFailedNodes : List String → Event
  | logMarkedDown : NodeArg → Event
  | setNodesDownAndPowerSaveCall : NodeArg → String → Event
  | logFailedToPlaceNodes : NodeArg → Event
  | logTopLevelException : String → Event
deriving DecidableEq, Repr

/-- Behaviour of every external collaborator the module calls, one oracle
per call site; each may return normally or raise any `Exc`.  Theorems
quantify over a `World`, so they hold for every collaborator behaviour. -/
structure World where
  readFile : String → Except Exc (List (String × String))
  getNodesInfo : String → Except Exc (List NodeInfo)
  addInstancesForNodes : List String → SlurmResumeConfig → Except Exc (List String)
  setNodesDownAndPowerSave : NodeArg → String → Except Exc Unit
  fileConfig : String → Except Exc Unit

/-- `SlurmResumeConfig._get_config` with its observable actions
(`resume.py` lines 42-70): `log.info("Reading ...")`, the `IOError`
re-raise with its `log.error`, and the final `log.info(repr)` on
success.  Other read failures (e.g. a parse error) propagate without the
`log.error`, since line 49 catches `IOError` only. -/
def getConfigRun (path : String) (readResult : Except Exc (List (String × String))) :
    Except Exc SlurmResumeConfig × List Event :=
  match readResult with
  | Except.error e =>
    (Except.error e,
      Event.logReadingConfig path ::
        (if e = Exc.ioError then [Event.logCannotReadConfig path] else []))
  | Except.ok config =>
    match getConfigVal config with
    | Except.error e => (Except.error e, [Event.logReadingConfig path])
    | Except.ok c => (Except.ok c, [Event.logReadingConfig path, Event.logConfigRepr])

/-- `_handle_failed_nodes` (`resume.py` lines 73-91): logs, attempts
`set_nodes_down_and_power_save`, and catches any exception from it,
logging instead of re-raising.  The result type records that the function
itself returns normally in both branches. -/
def handle_failed_nodes (w : World) (node_list : NodeArg) : Except Exc Unit × List Event :=
  match w.setNodesDownAndPowerSave node_list resumeFailureReason with
  | Except.ok _ =>
    (Except.ok (),
      [Event.logMarkedDown node_list,
       Event.setNodesDownAndPowerSaveCall node_list resumeFailureReason])
  | Except.error _ =>
    (Except.ok (),
      [Event.logMarkedDown node_list,
       Event.setNodesDownAndPowerSaveCall node_list resumeFailureReason,
       Event.logFailedToPlaceNodes node_list])

/-- `_add_instances` (`resume.py` lines 94-105): builds the
`InstanceLauncher` from the node list and configuration, runs
`add_instances_for_nodes`, and returns its `failed_nodes`; an exception
from the launcher propagates. -/
def add_instances (w : World) (node_list : List String) (resume_config : SlurmResumeConfig) :
    Except Exc (List String) × List Event :=
  (w.addInstancesForNodes node_list resume_config, [Event.addInstancesCall node_list])

/-- `_resume` (`resume.py` lines 108-119): resolves `arg_nodes` through
`get_nodes_info`, provisions via `_add_instances`, computes
`success_nodes = [node for node in node_list if node not in failed_nodes]`,
and calls `_handle_failed_nodes(failed_nodes)` exactly when
`failed_nodes` is non-empty.  Exceptions from resolution or provisioning
propagate to the caller. -/
def resume (w : World) (arg_nodes : String) (resume_config : SlurmResumeConfig) :
    Except Exc Unit × List Event :=
  match w.getNodesInfo arg_nodes with
  | Except.error e =>
    (Except.error e, [Event.logLaunchingFor arg_nodes, Event.getNodesInfoCall arg_nodes])
  | Except.ok infos =>
    let node_list := infos.map NodeInfo.name
    let p := add_instances w node_list resume_config
    match p.1 with
    | Except.error e =>
      (Except.error e,
        [Event.logLaunchingFor arg_nodes, Event.getNodesInfoCall arg_nodes,
         Event.logRetrievedNodelist node_list] ++ p.2)
    | Except.ok failed_nodes =>
      let success_nodes := node_list.filter (fun node => ! failed_nodes.contains node)
      let ev :=
        [Event.logLaunchingFor arg_nodes, Event.getNodesInfoCall arg_nodes,
         Event.logRetrievedNodelist node_list] ++ p.2 ++ [Event.logSuccessNodes success_nodes]
      if failed_nodes.isEmpty then (Except.ok (), ev)
      else
        (Except.ok (),
          ev ++ [Event.logFailedNodes failed_nodes] ++
            (handle_failed_nodes w (NodeArg.names failed_nodes)).2)

/-- `main` (`resume.py` lines 122-147), after argument parsing: loads the
configuration, applies the configured logging setup falling back to
`basicConfig` on `DEFAULT_LOG_FILE`, runs `_resume`, and catches every
exception escaping the `try` block with `log.exception` plus
`_handle_failed_nodes(args.nodes)`.  `main` itself always returns, so the
process exit status (the `Nat` component) is 0 in every branch. -/
def main_run (w : World) (arg_nodes : String) : Nat × List Event :=
  let p := getConfigRun slurmResumeConfPath (w.readFile slurmResumeConfPath)
  match p.1 with
  | Except.error _ =>
    (0, p.2 ++ [Event.logTopLevelException arg_nodes] ++
      (handle_failed_nodes w (NodeArg.expr arg_nodes)).2)
  | Except.ok resume_config =>
    let evLog :=
      match w.fileConfig resume_config.logging_config with
      | Except.ok _ => [Event.fileConfigCall resume_config.logging_config]
      | Except.error _ =>
        [Event.fileConfigCall resume_config.logging_config,
         Event.basicConfigCall DEFAULT_LOG_FILE,
         Event.logUnableToConfigureLogging resume_config.logging_config]
    let q := resume w arg_nodes resume_config
    match q.1 with
    | Except.ok _ => (0, p.2 ++ evLog ++ q.2)
    | Except.error _ =>
      (0, p.2 ++ evLog ++ q.2 ++ [Event.logTopLevelException arg_nodes] ++
        (handle_failed_nodes w (NodeArg.expr arg_nodes)).2)

/-- Recogniser for scheduler node-state mutation attempts (calls into
`set_nodes_down_and_power_save`): one per `_handle_failed_nodes`
invocation, so these events count reconciliation attempts. -/
def isSetNodesDownCall : Event → Bool
  | Event.setNodesDownAndPowerSaveCall _ _ => true
  | _ => false

/-- Recogniser for provisioning invocations (`InstanceLauncher` runs). -/
def isAddInstancesCall : Event → Bool
  | Event.addInstancesCall _ => true
  | _ => false

/-- Recogniser for node-resolution invocations (`get_nodes_info`). -/
def isGetNodesInfoCall : Event → Bool
  | Event.getNodesInfoCall _ => true
  | _ => false

/-- Recogniser for the logging-setup actions of `main` (lines 128-143),
the only part of the run that the `fileConfig` outcome may influence. -/
def isLoggingSetupEvent : Event → Bool
  | Event.fileConfigCall _ => true
  | Event.basicConfigCall _ => true
  | Event.logUnableToConfigureLogging _ => true
  | _ => false

/-! ## Helper lemmas shared by several claim proofs -/

theorem handle_failed_nodes_fst (w : World) (a : NodeArg) :
    (handle_failed_nodes w a).1 = Except.ok () := by
  unfold handle_failed_nodes
  cases w.setNodesDownAndPowerSave a resumeFailureReason <;> rfl

theorem handle_failed_nodes_mem (w : World) (a : NodeArg) :
    Event.setNodesDownAndPowerSaveCall a resumeFailureReason ∈ (handle_failed_nodes w a).2 := by
  unfold handle_failed_nodes
  cases w.setNodesDownAndPowerSave a resumeFailureReason <;> simp

theorem handle_failed_nodes_filter (w : World) (a : NodeArg) :
    (handle_failed_nodes w a).2.filter isSetNodesDownCall =
      [Event.setNodesDownAndPowerSaveCall a resumeFailureReason] := by
  unfold handle_failed_nodes
  cases w.setNodesDownAndPowerSave a resumeFailureReason <;>
    simp [isSetNodesDownCall]

theorem handle_failed_nodes_no_add (w : World) (a : NodeArg) :
    (handle_failed_nodes w a).2.filter isAddInstancesCall = [] := by
  unfold handle_failed_nodes
  cases w.setNodesDownAndPowerSave a resumeFailureReason <;>
    simp [isAddInstancesCall]

theorem handle_failed_nodes_no_resolve (w : World) (a : NodeArg) :
    (handle_failed_nodes w a).2.filter isGetNodesInfoCall = [] := by
  unfold handle_failed_nodes
  cases w.setNodesDownAndPowerSave a resumeFailureReason <;>
    simp [isGetNodesInfoCall]

theorem getConfigRun_filter_set (path : String) (r : Except Exc (List (String × String))) :
    ((getConfigRun path r).2.filter isSetNodesDownCall = [] ∧
      (getConfigRun path r).2.filter isAddInstancesCall = [] ∧
      (getConfigRun path r).2.filter isGetNodesInfoCall = []) := by
  unfold getConfigRun
  cases r with
  | error e =>
    by_cases h : e = Exc.ioError <;>
      simp [h, isSetNodesDownCall, isAddInstancesCall, isGetNodesInfoCall]
  | ok config =>
    cases hv : getConfigVal config <;>
      simp [hv, isSetNodesDownCall, isAddInstancesCall, isGetNodesInfoCall]

theorem main_run_config_error (w : World) (s : String) (e : Exc)
    (hc : (getConfigRun slurmResumeConfPath (w.readFile slurmResumeConfPath)).1 =
      Except.error e) :
    (main_run w s).1 = 0 ∧
      (main_run w s).2.filter isSetNodesDownCall =
        [Event.setNodesDownAndPowerSaveCall (NodeArg.expr s) resumeFailureReason] ∧
      (main_run w s).2.filter isAddInstancesCall = [] ∧
      (main_run w s).2.filter isGetNodesInfoCall = [] := by
  unfold main_run
  simp only [hc]
  simp [List.filter_append, (getConfigRun_filter_set _ _).1,
    (getConfigRun_filter_set _ _).2.1, (getConfigRun_filter_set _ _).2.2,
    handle_failed_nodes_filter, handle_failed_nodes_no_add,
    handle_failed_nodes_no_resolve, isSetNodesDownCall, isAddInstancesCall,
    isGetNodesInfoCall]

/-! ## Shared concrete inputs for witnesses and counterexamples -/

def basicConfFile : List (String × String) :=
  [("region", "us-east-1"), ("cluster_name", "hpc")]

def basicConf : SlurmResumeConfig :=
  { region := "us-east-1"
    cluster_name := "hpc"
    max_batch_size := 100
    update_node_address := true
    boto3_config := { retries_max_attempts := 5, retries_mode := "standard", proxies := none }
    logging_config := DEFAULTS_logging_config }

/-- A benign collaborator behaviour: readable configuration with the two
required keys, two resolvable nodes, no launch failures. -/
def baseWorld : World :=
  { readFile := fun _ => Except.ok basicConfFile
    getNodesInfo := fun _ => Except.ok [{ name := "node-1" }, { name := "node-2" }]
    addInstancesForNodes := fun _ _ => Except.ok []
    setNodesDownAndPowerSave := fun _ _ => Except.ok ()
    fileConfig := fun _ => Except.ok () }

/-! ## C8 -/

/-- C8: for every node argument and every behaviour of the underlying
`set_nodes_down_and_power_save` call, including raising an arbitrary
exception, `_handle_failed_nodes` returns normally (never raises), and
the process exit status of a full run is 0 regardless, so a
reconciliation failure cannot affect it. -/
theorem c8_reconciler_never_raises (w : World) (a : NodeArg) (s : String) :
    (handle_failed_nodes w a).1 = Except.ok () ∧ (main_run w s).1 = 0 := by
  refine ⟨handle_failed_nodes_fst w a, ?_⟩
  unfold main_run
  cases hc : (getConfigRun slurmResumeConfPath (w.readFile slurmResumeConfPath)).1 with
  | error e => simp [hc]
  | ok c =>
    cases hq : (resume w s c).1 with
    | error e => simp [hc, hq]
    | ok u => simp [hc, hq]

/-! ## C1 -/

/-- C1: whenever node resolution or provisioning raises an exception that
escapes `_resume` (after a successful configuration load), the top-level
run catches it, logs it together with the original node request, and
attempts reconciliation: the trace contains the exception log with the
request string and a `set_nodes_down_and_power_save` attempt before the
run ends. -/
theorem c1_escaping_error_reconciled (w : World) (s : String) (c : SlurmResumeConfig)
    (e : Exc)
    (hc : (getConfigRun slurmResumeConfPath (w.readFile slurmResumeConfPath)).1 =
      Except.ok c)
    (hfail : (resume w s c).1 = Except.error e) :
    Event.logTopLevelException s ∈ (main_run w s).2 ∧
      Event.setNodesDownAndPowerSaveCall (NodeArg.expr s) resumeFailureReason ∈
        (main_run w s).2 := by
  unfold main_run
  simp only [hc, hfail]
  constructor
  · simp [List.mem_append]
  · simp [List.mem_append, handle_failed_nodes_mem w (NodeArg.expr s)]

def c1World : World :=
  { baseWorld with getNodesInfo := fun _ => Except.error (Exc.err "scheduler unreachable") }

theorem c1_witness :
    Event.logTopLevelException "queue1-[1-2]" ∈ (main_run c1World "queue1-[1-2]").2 ∧
      Event.setNodesDownAndPowerSaveCall (NodeArg.expr "queue1-[1-2]") resumeFailureReason ∈
        (main_run c1World "queue1-[1-2]").2 :=
  c1_escaping_error_reconciled c1World "queue1-[1-2]" basicConf
    (Exc.err "scheduler unreachable") (by decide) (by decide)

/-! ## C4 -/

/-- C4: if node resolution (`get_nodes_info`) raises, the run attempts
reconciliation exactly once, with the original unresolved node-request
expression string as the identifier, and makes no provisioning call. -/
theorem c4_resolution_failure_reconciles_raw (w : World) (s : String)
    (c : SlurmResumeConfig) (e : Exc)
    (hc : (getConfigRun slurmResumeConfPath (w.readFile slurmResumeConfPath)).1 =
      Except.ok c)
    (hres : w.getNodesInfo s = Except.error e) :
    (main_run w s).2.filter isSetNodesDownCall =
      [Event.setNodesDownAndPowerSaveCall (NodeArg.expr s) resumeFailureReason] ∧
      (main_run w s).2.filter isAddInstancesCall = [] := by
  have hr : (resume w s c).1 = Except.error e := by simp [resume, hres]
  have hr2 : (resume w s c).2 = [Event.logLaunchingFor s, Event.getNodesInfoCall s] := by
    simp [resume, hres]
  unfold main_run
  simp only [hc, hr]
  cases hl : w.fileConfig c.logging_config <;>
    simp [hr2, List.filter_append, (getConfigRun_filter_set _ _).1,
      (getConfigRun_filter_set _ _).2.1, handle_failed_nodes_filter,
      handle_failed_nodes_no_add, isSetNodesDownCall, isAddInstancesCall, hl]

theorem c4_witness :
    (main_run c1World "queue1-[3-4]").2.filter isSetNodesDownCall =
      [Event.setNodesDownAndPowerSaveCall (NodeArg.expr "queue1-[3-4]") resumeFailureReason] ∧
      (main_run c1World "queue1-[3-4]").2.filter isAddInstancesCall = [] :=
  c4_resolution_failure_reconciles_raw c1World "queue1-[3-4]" basicConf
    (Exc.err "scheduler unreachable") (by decide) (by decide)

/-! ## C3 -/

/-- Collaborators in which provisioning raises instead of returning a
failure set. -/
def provisionCrashWorld : World :=
  { baseWorld with
    addInstancesForNodes := fun _ _ => Except.error (Exc.err "insufficient capacity") }

/-- Collaborators in which provisioning returns every resolved node as
failed. -/
def provisionAllFailWorld : World :=
  { baseWorld with addInstancesForNodes := fun l _ => Except.ok l }

/-- C3 counterexample: with the same request `"node-[1-2]"` resolving to
`["node-1", "node-2"]`, the run in which provisioning raises reconciles
the raw request expression, whereas the run in which provisioning
returns every node of `L` as failed reconciles the resolved list `L`;
the two reconciler invocations carry different arguments, so the two
paths do not invoke the reconciler equivalently. -/
theorem c3_counterexample :
    (main_run provisionCrashWorld "node-[1-2]").2.filter isSetNodesDownCall =
      [Event.setNodesDownAndPowerSaveCall (NodeArg.expr "node-[1-2]") resumeFailureReason] ∧
      (main_run provisionAllFailWorld "node-[1-2]").2.filter isSetNodesDownCall =
        [Event.setNodesDownAndPowerSaveCall (NodeArg.names ["node-1", "node-2"])
          resumeFailureReason] ∧
      NodeArg.expr "node-[1-2]" ≠ NodeArg.names ["node-1", "node-2"] := by decide

/-- C3 amended: if provisioning raises after the node list was resolved,
the top-level handler invokes the reconciler exactly once, with the raw
node-request expression (not with the resolved list `L`); the outcome
matches the explicit `failed = L` path only up to the scheduler's own
expansion of the expression. -/
theorem c3_amended_exception_reconciles_raw (w : World) (s : String)
    (c : SlurmResumeConfig) (infos : List NodeInfo) (e : Exc)
    (hc : (getConfigRun slurmResumeConfPath (w.readFile slurmResumeConfPath)).1 =
      Except.ok c)
    (hres : w.getNodesInfo s = Except.ok infos)
    (hlaunch : w.addInstancesForNodes (infos.map NodeInfo.name) c = Except.error e) :
    (main_run w s).2.filter isSetNodesDownCall =
      [Event.setNodesDownAndPowerSaveCall (NodeArg.expr s) resumeFailureReason] ∧
      Event.logTopLevelException s ∈ (main_run w s).2 := by
  have hr : (resume w s c).1 = Except.error e := by
    simp [resume, add_instances, hres, hlaunch]
  have hr2 : (resume w s c).2 =
      [Event.logLaunchingFor s, Event.getNodesInfoCall s,
        Event.logRetrievedNodelist (infos.map NodeInfo.name),
        Event.addInstancesCall (infos.map NodeInfo.name)] := by
    simp [resume, add_instances, hres, hlaunch]
  unfold main_run
  simp only [hc, hr]
  constructor
  · cases hl : w.fileConfig c.logging_config <;>
      simp [hr2, List.filter_append, (getConfigRun_filter_set _ _).1,
        handle_failed_nodes_filter, isSetNodesDownCall, hl]
  · simp [List.mem_append]

theorem c3_witness :
    (main_run provisionCrashWorld "queue2-[1-2]").2.filter isSetNodesDownCall =
      [Event.setNodesDownAndPowerSaveCall (NodeArg.expr "queue2-[1-2]") resumeFailureReason] ∧
      Event.logTopLevelException "queue2-[1-2]" ∈ (main_run provisionCrashWorld "queue2-[1-2]").2 :=
  c3_amended_exception_reconciles_raw provisionCrashWorld "queue2-[1-2]" basicConf
    [{ name := "node-1" }, { name := "node-2" }] (Exc.err "insufficient capacity")
    (by decide) (by decide) (by decide)

/-! ## C5 -/

/-- Collaborators in which the configuration file cannot be read. -/
def unreadableConfWorld : World :=
  { baseWorld with readFile := fun _ => Except.error Exc.ioError }

/-- C5 counterexample: with an unreadable configuration file the process
exit status is 0 (not non-zero), and a scheduler node-state mutation is
attempted (reconciliation on the raw request string) — the opposite of
both parts of the claim. -/
theorem c5_counterexample :
    (main_run unreadableConfWorld "node-1").1 = 0 ∧
      (main_run unreadableConfWorld "node-1").2.filter isSetNodesDownCall =
        [Event.setNodesDownAndPowerSaveCall (NodeArg.expr "node-1") resumeFailureReason] := by
  decide

/-- C5 amended: if loading the configuration fails (unreadable file or a
missing required key), the top-level handler catches the error, attempts
reconciliation exactly once using the raw node-request expression, makes
no resolver or provisioning call, and the process exits with status 0. -/
theorem c5_amended_config_failure_reconciles (w : World) (s : String) (e : Exc)
    (hc : (getConfigRun slurmResumeConfPath (w.readFile slurmResumeConfPath)).1 =
      Except.error e) :
    (main_run w s).1 = 0 ∧
      (main_run w s).2.filter isSetNodesDownCall =
        [Event.setNodesDownAndPowerSaveCall (NodeArg.expr s) resumeFailureReason] ∧
      (main_run w s).2.filter isAddInstancesCall = [] ∧
      (main_run w s).2.filter isGetNodesInfoCall = [] :=
  main_run_config_error w s e hc

theorem c5_witness :
    (main_run unreadableConfWorld "node-7").1 = 0 ∧
      (main_run unreadableConfWorld "node-7").2.filter isSetNodesDownCall =
        [Event.setNodesDownAndPowerSaveCall (NodeArg.expr "node-7") resumeFailureReason] ∧
      (main_run unreadableConfWorld "node-7").2.filter isAddInstancesCall = [] ∧
      (main_run unreadableConfWorld "node-7").2.filter isGetNodesInfoCall = [] :=
  c5_amended_config_failure_reconciles unreadableConfWorld "node-7" Exc.ioError (by decide)

/-! ## C2 -/

/-- C2: when provisioning returns a failure set `F ⊆ L` for the resolved
list `L`, `_resume` computes `success_nodes` as `L` minus `F` (so the two
sets partition `L`), logs it, returns normally, and invokes the fallback
reconciler exactly once with exactly `F` when `F` is non-empty, and not
at all when `F` is empty. -/
theorem c2_partition_and_single_reconciliation (w : World) (s : String)
    (c : SlurmResumeConfig) (infos : List NodeInfo) (F : List String)
    (hres : w.getNodesInfo s = Except.ok infos)
    (hlaunch : w.addInstancesForNodes (infos.map NodeInfo.name) c = Except.ok F)
    (hsub : ∀ x ∈ F, x ∈ infos.map NodeInfo.name) :
    Event.logSuccessNodes
        ((infos.map NodeInfo.name).filter (fun node => ! F.contains node)) ∈
      (resume w s c).2 ∧
      (∀ x, (x ∈ (infos.map NodeInfo.name).filter (fun node => ! F.contains node) ∨
          x ∈ F) ↔ x ∈ infos.map NodeInfo.name) ∧
      (∀ x, ¬ (x ∈ (infos.map NodeInfo.name).filter (fun node => ! F.contains node) ∧
          x ∈ F)) ∧
      (resume w s c).1 = Except.ok () ∧
      (F ≠ [] → (resume w s c).2.filter isSetNodesDownCall =
        [Event.setNodesDownAndPowerSaveCall (NodeArg.names F) resumeFailureReason]) ∧
      (F = [] → (resume w s c).2.filter isSetNodesDownCall = []) := by
  have hpart1 : ∀ x,
      (x ∈ (infos.map NodeInfo.name).filter (fun node => ! F.contains node) ∨ x ∈ F) ↔
        x ∈ infos.map NodeInfo.name := by
    intro x
    constructor
    · rintro (hx | hx)
      · exact (List.mem_filter.mp hx).1
      · exact hsub x hx
    · intro hx
      by_cases hxf : x ∈ F
      · exact Or.inr hxf
      · refine Or.inl (List.mem_filter.mpr ⟨hx, ?_⟩)
        simp [List.contains, hxf]
  have hpart2 : ∀ x,
      ¬ (x ∈ (infos.map NodeInfo.name).filter (fun node => ! F.contains node) ∧
        x ∈ F) := by
    rintro x ⟨hx, hxf⟩
    have := (List.mem_filter.mp hx).2
    simp [List.contains, hxf] at this
  refine ⟨?_, hpart1, hpart2, ?_, ?_, ?_⟩
  · by_cases hF : F.isEmpty <;>
      simp [resume, add_instances, hres, hlaunch, hF, List.mem_append]
  · by_cases hF : F.isEmpty <;>
      simp [resume, add_instances, hres, hlaunch, hF]
  · intro hFne
    have hF : F.isEmpty = false := by simpa [List.isEmpty_iff] using hFne
    simp [resume, add_instances, hres, hlaunch, hF, List.filter_append,
      handle_failed_nodes_filter, isSetNodesDownCall]
  · intro hFe
    subst hFe
    simp [resume, add_instances, hres, hlaunch, isSetNodesDownCall]

/-- Collaborators for the partial-failure scenario: three resolved nodes,
two of which fail to launch. -/
def partialFailWorld : World :=
  { baseWorld with
    getNodesInfo := fun _ =>
      Except.ok [{ name := "node-1" }, { name := "node-2" }, { name := "node-3" }]
    addInstancesForNodes := fun _ _ => Except.ok ["node-2", "node-3"] }

theorem c2_witness :
    Event.logSuccessNodes
        ((([{ name := "node-1" }, { name := "node-2" },
            { name := "node-3" }] : List NodeInfo).map NodeInfo.name).filter
          (fun node => ! (["node-2", "node-3"] : List String).contains node)) ∈
      (resume partialFailWorld "node-[1-3]" basicConf).2 ∧
      (∀ x, (x ∈ (([{ name := "node-1" }, { name := "node-2" },
          { name := "node-3" }] : List NodeInfo).map NodeInfo.name).filter
            (fun node => ! (["node-2", "node-3"] : List String).contains node) ∨
          x ∈ (["node-2", "node-3"] : List String)) ↔
        x ∈ ([{ name := "node-1" }, { name := "node-2" },
          { name := "node-3" }] : List NodeInfo).map NodeInfo.name) ∧
      (∀ x, ¬ (x ∈ (([{ name := "node-1" }, { name := "node-2" },
          { name := "node-3" }] : List NodeInfo).map NodeInfo.name).filter
            (fun node => ! (["node-2", "node-3"] : List String).contains node) ∧
          x ∈ (["node-2", "node-3"] : List String))) ∧
      (resume partialFailWorld "node-[1-3]" basicConf).1 = Except.ok () ∧
      ((["node-2", "node-3"] : List String) ≠ [] →
        (resume partialFailWorld "node-[1-3]" basicConf).2.filter isSetNodesDownCall =
          [Event.setNodesDownAndPowerSaveCall (NodeArg.names ["node-2", "node-3"])
            resumeFailureReason]) ∧
      ((["node-2", "node-3"] : List String) = [] →
        (resume partialFailWorld "node-[1-3]" basicConf).2.filter isSetNodesDownCall = []) :=
  c2_partition_and_single_reconciliation partialFailWorld "node-[1-3]" basicConf
    [{ name := "node-1" }, { name := "node-2" }, { name := "node-3" }]
    ["node-2", "node-3"] (by decide) (by decide) (by decide)

/-! ## C6 -/

theorem configGet_ok (cfg : List (String × String)) (opt v : String)
    (h : optionLookup cfg opt = some v) : configGet cfg opt = Except.ok v := by
  unfold configGet
  rw [h]

theorem configGetInt_ok (cfg : List (String × String)) (opt : String) (fb : Int)
    (h : ∀ v, optionLookup cfg opt = some v → (pyParseInt v).isSome = true) :
    ∃ n, configGetInt cfg opt fb = Except.ok n ∧ (optionLookup cfg opt = none → n = fb) := by
  unfold configGetInt
  cases hl : optionLookup cfg opt with
  | none => exact ⟨fb, rfl, fun _ => rfl⟩
  | some v =>
    obtain ⟨n, hn⟩ := Option.isSome_iff_exists.mp (h v hl)
    refine ⟨n, ?_, by simp⟩
    simp [hn]

theorem configGetBool_ok (cfg : List (String × String)) (opt : String) (fb : Bool)
    (h : ∀ v, optionLookup cfg opt = some v → (pyParseBool v).isSome = true) :
    ∃ b, configGetBool cfg opt fb = Except.ok b ∧ (optionLookup cfg opt = none → b = fb) := by
  unfold configGetBool
  cases hl : optionLookup cfg opt with
  | none => exact ⟨fb, rfl, fun _ => rfl⟩
  | some v =>
    obtain ⟨b, hb⟩ := Option.isSome_iff_exists.mp (h v hl)
    refine ⟨b, ?_, by simp⟩
    simp [hb]

def c6BadFile : List (String × String) :=
  [("region", "us-east-1"), ("cluster_name", "hpc"), ("max_batch_size", "many")]

/-- C6 counterexample: `c6BadFile` contains both required keys, yet load
raises (`max_batch_size` is present but not an integer) instead of
succeeding; and the loader's documented proxy default is the upper-case
literal `"NONE"`, not `"none"` as claimed. -/
theorem c6_counterexample :
    optionLookup c6BadFile "region" = some "us-east-1" ∧
      optionLookup c6BadFile "cluster_name" = some "hpc" ∧
      getConfigVal c6BadFile = Except.error (Exc.valueError "many") ∧
      DEFAULTS_proxy ≠ "none" := by decide

/-- C6 amended: for every configuration file containing the required keys
`region` and `cluster_name` and whose optional keys, when present, are
well-formed, load succeeds, and every omitted optional key takes its
source default: `max_batch_size` 100, `update_node_address` true,
`max_retry` 5 (as the retry policy's attempt count), proxy the literal
`"NONE"` (hence no proxy entry), and `logging_config` the packaged
default file path. -/
theorem c6_amended_defaults (cfg : List (String × String)) (r cn : String)
    (hr : optionLookup cfg "region" = some r)
    (hcn : optionLookup cfg "cluster_name" = some cn)
    (hmb : ∀ v, optionLookup cfg "max_batch_size" = some v → (pyParseInt v).isSome = true)
    (hub : ∀ v, optionLookup cfg "update_node_address" = some v →
      (pyParseBool v).isSome = true) :
    ∃ c, getConfigVal cfg = Except.ok c ∧
      c.region = r ∧ c.cluster_name = cn ∧
      (optionLookup cfg "max_batch_size" = none → c.max_batch_size = 100) ∧
      (optionLookup cfg "update_node_address" = none → c.update_node_address = true) ∧
      c.boto3_config.retries_max_attempts = 5 ∧
      c.boto3_config.retries_mode = "standard" ∧
      (optionLookup cfg "proxy" = none → c.boto3_config.proxies = none) ∧
      (optionLookup cfg "logging_config" = none →
        c.logging_config = DEFAULTS_logging_config) := by
  obtain ⟨m, hm, hmd⟩ := configGetInt_ok cfg "max_batch_size" DEFAULTS_max_batch_size hmb
  obtain ⟨b, hb, hbd⟩ :=
    configGetBool_ok cfg "update_node_address" DEFAULTS_update_node_address hub
  refine
    ⟨{ region := r
       cluster_name := cn
       max_batch_size := m
       update_node_address := b
       boto3_config :=
         { retries_max_attempts := DEFAULTS_max_retry
           retries_mode := "standard"
           proxies :=
             if configGetD cfg "proxy" DEFAULTS_proxy ≠ "NONE"
               then some ("https", configGetD cfg "proxy" DEFAULTS_proxy) else none }
       logging_config := configGetD cfg "logging_config" DEFAULTS_logging_config },
      ?_, rfl, rfl, fun h => hmd h, fun h => hbd h, rfl, rfl, ?_, ?_⟩
  · unfold getConfigVal
    rw [configGet_ok cfg "region" r hr, configGet_ok cfg "cluster_name" cn hcn, hm, hb]
  · intro hp
    simp [configGetD, hp, DEFAULTS_proxy]
  · intro hl
    simp [configGetD, hl]

def c6GoodFile : List (String × String) := [("region", "eu-west-1"), ("cluster_name", "c2")]

theorem c6_witness :
    ∃ c, getConfigVal c6GoodFile = Except.ok c ∧
      c.region = "eu-west-1" ∧ c.cluster_name = "c2" ∧
      (optionLookup c6GoodFile "max_batch_size" = none → c.max_batch_size = 100) ∧
      (optionLookup c6GoodFile "update_node_address" = none → c.update_node_address = true) ∧
      c.boto3_config.retries_max_attempts = 5 ∧
      c.boto3_config.retries_mode = "standard" ∧
      (optionLookup c6GoodFile "proxy" = none → c.boto3_config.proxies = none) ∧
      (optionLookup c6GoodFile "logging_config" = none →
        c.logging_config = DEFAULTS_logging_config) :=
  c6_amended_defaults c6GoodFile "eu-west-1" "c2" (by decide) (by decide)
    (fun v h => Option.noConfusion ((by decide :
      optionLookup c6GoodFile "max_batch_size" = none) ▸ h))
    (fun v h => Option.noConfusion ((by decide :
      optionLookup c6GoodFile "update_node_address" = none) ▸ h))

/-! ## C7 -/

def c7File : List (String × String) :=
  [("region", "us-east-1"), ("cluster_name", "hpc"), ("proxy", "none")]

/-- C7 counterexample: with the configured proxy value being the literal
`"none"` (lower-case), the constructed outbound-call policy does contain
a proxy entry (`{"https": "none"}`), because the code only treats the
upper-case literal `"NONE"` as "no proxy" — refuting the claimed
equivalence for the literal `"none"`. -/
theorem c7_counterexample :
    optionLookup c7File "proxy" = some "none" ∧
      (getConfigVal c7File).toOption.map (fun c => c.boto3_config.proxies) =
        some (some ("https", "none")) := by decide

/-- C7 amended: every successfully loaded configuration carries a boto3
policy with `max_retry = 5` attempts in standard retry mode, and a proxy
entry if and only if the configured proxy value (defaulting to `"NONE"`)
is not the literal `"NONE"`; when present the entry maps `"https"` to the
configured value. -/
theorem c7_amended_retry_and_proxy_policy (cfg : List (String × String))
    (c : SlurmResumeConfig) (h : getConfigVal cfg = Except.ok c) :
    c.boto3_config.retries_max_attempts = 5 ∧
      c.boto3_config.retries_mode = "standard" ∧
      (c.boto3_config.proxies ≠ none ↔ configGetD cfg "proxy" DEFAULTS_proxy ≠ "NONE") ∧
      (configGetD cfg "proxy" DEFAULTS_proxy ≠ "NONE" →
        c.boto3_config.proxies = some ("https", configGetD cfg "proxy" DEFAULTS_proxy)) := by
  unfold getConfigVal at h
  cases h1 : configGet cfg "region" with
  | error e => simp [h1] at h
  | ok region =>
    cases h2 : configGet cfg "cluster_name" with
    | error e => simp [h1, h2] at h
    | ok cluster_name =>
      cases h3 : configGetInt cfg "max_batch_size" DEFAULTS_max_batch_size with
      | error e => simp [h1, h2, h3] at h
      | ok m =>
        cases h4 : configGetBool cfg "update_node_address" DEFAULTS_update_node_address with
        | error e => simp [h1, h2, h3, h4] at h
        | ok b =>
          simp only [h1, h2, h3, h4, Except.ok.injEq] at h
          subst h
          by_cases hp : configGetD cfg "proxy" DEFAULTS_proxy = "NONE" <;>
            simp [hp, DEFAULTS_max_retry]

theorem c7_witness :
    basicConf.boto3_config.retries_max_attempts = 5 ∧
      basicConf.boto3_config.retries_mode = "standard" ∧
      (basicConf.boto3_config.proxies ≠ none ↔
        configGetD basicConfFile "proxy" DEFAULTS_proxy ≠ "NONE") ∧
      (configGetD basicConfFile "proxy" DEFAULTS_proxy ≠ "NONE" →
        basicConf.boto3_config.proxies =
          some ("https", configGetD basicConfFile "proxy" DEFAULTS_proxy)) :=
  c7_amended_retry_and_proxy_policy basicConfFile basicConf (by decide)

/-! ## C9 -/

/-- C9: if applying the configured logging setup fails, the run falls
back to `basicConfig` on the fixed default log file and still runs the
resume workflow exactly as it would have with a working logging setup:
`_resume` behaves identically, the non-logging-setup part of the trace is
unchanged, and the exit status is unchanged. -/
theorem c9_logging_failure_workflow_unchanged (w : World) (s : String)
    (c : SlurmResumeConfig) (e : Exc)
    (hc : (getConfigRun slurmResumeConfPath (w.readFile slurmResumeConfPath)).1 =
      Except.ok c)
    (hlog : w.fileConfig c.logging_config = Except.error e) :
    Event.basicConfigCall DEFAULT_LOG_FILE ∈ (main_run w s).2 ∧
      resume w s c = resume { w with fileConfig := fun _ => Except.ok () } s c ∧
      (main_run w s).2.filter (fun ev => ! isLoggingSetupEvent ev) =
        (main_run { w with fileConfig := fun _ => Except.ok () } s).2.filter
          (fun ev => ! isLoggingSetupEvent ev) ∧
      (main_run w s).1 = (main_run { w with fileConfig := fun _ => Except.ok () } s).1 := by
  have hrf : ({ w with fileConfig := fun _ => Except.ok () } : World).readFile =
      w.readFile := rfl
  have hfc : ({ w with fileConfig := fun _ => Except.ok () } : World).fileConfig =
      fun _ => Except.ok () := rfl
  have hrw : resume ({ w with fileConfig := fun _ => Except.ok () } : World) s c =
      resume w s c := rfl
  have hhf : ∀ a, handle_failed_nodes
      ({ w with fileConfig := fun _ => Except.ok () } : World) a =
        handle_failed_nodes w a := fun a => rfl
  refine ⟨?_, rfl, ?_, ?_⟩
  · unfold main_run
    simp only [hc]
    cases hq : (resume w s c).1 <;> simp [hq, hlog, List.mem_append]
  · unfold main_run
    simp only [hrf, hfc, hrw, hhf, hc]
    cases hq : (resume w s c).1 <;>
      simp [hq, hlog, List.filter_append, isLoggingSetupEvent]
  · unfold main_run
    simp only [hrf, hfc, hrw, hhf, hc]
    cases hq : (resume w s c).1 <;> simp [hq, hlog]

/-- Collaborators whose logging setup call fails. -/
def logFailWorld : World :=
  { baseWorld with fileConfig := fun _ => Except.error (Exc.err "bad logging conf") }

theorem c9_witness :
    Event.basicConfigCall DEFAULT_LOG_FILE ∈ (main_run logFailWorld "node-1").2 ∧
      resume logFailWorld "node-1" basicConf =
        resume { logFailWorld with fileConfig := fun _ => Except.ok () } "node-1" basicConf ∧
      (main_run logFailWorld "node-1").2.filter (fun ev => ! isLoggingSetupEvent ev) =
        (main_run { logFailWorld with fileConfig := fun _ => Except.ok () } "node-1").2.filter
          (fun ev => ! isLoggingSetupEvent ev) ∧
      (main_run logFailWorld "node-1").1 =
        (main_run { logFailWorld with fileConfig := fun _ => Except.ok () } "node-1").1 :=
  c9_logging_failure_workflow_unchanged logFailWorld "node-1" basicConf
    (Exc.err "bad logging conf") (by decide) (by decide)

/-! ## C10 -/

/-- C10: if an optional key is present but malformed (`max_batch_size`
not an integer, or `update_node_address` not a recognised boolean), the
configuration load raises a `ValueError` for that value instead of
falling back to the key's default, and the top-level handler then
attempts reconciliation on the raw, unresolved request expression before
the process exits (with status 0). -/
theorem c10_malformed_optional_raises_then_reconciles (w : World) (s v r cn : String)
    (cfgFile : List (String × String))
    (hread : w.readFile slurmResumeConfPath = Except.ok cfgFile)
    (hr : optionLookup cfgFile "region" = some r)
    (hcn : optionLookup cfgFile "cluster_name" = some cn)
    (hbad :
      (optionLookup cfgFile "max_batch_size" = some v ∧ pyParseInt v = none) ∨
        ((∀ u, optionLookup cfgFile "max_batch_size" = some u →
            (pyParseInt u).isSome = true) ∧
          optionLookup cfgFile "update_node_address" = some v ∧ pyParseBool v = none)) :
    getConfigVal cfgFile = Except.error (Exc.valueError v) ∧
      (main_run w s).1 = 0 ∧
      (main_run w s).2.filter isSetNodesDownCall =
        [Event.setNodesDownAndPowerSaveCall (NodeArg.expr s) resumeFailureReason] := by
  have hval : getConfigVal cfgFile = Except.error (Exc.valueError v) := by
    rcases hbad with ⟨hmb, hpv⟩ | ⟨hwf, huna, hpb⟩
    · unfold getConfigVal
      rw [configGet_ok cfgFile "region" r hr, configGet_ok cfgFile "cluster_name" cn hcn]
      simp [configGetInt, hmb, hpv]
    · obtain ⟨m, hm, -⟩ :=
        configGetInt_ok cfgFile "max_batch_size" DEFAULTS_max_batch_size hwf
      unfold getConfigVal
      rw [configGet_ok cfgFile "region" r hr, configGet_ok cfgFile "cluster_name" cn hcn, hm]
      simp [configGetBool, huna, hpb]
  have hcr : (getConfigRun slurmResumeConfPath (w.readFile slurmResumeConfPath)).1 =
      Except.error (Exc.valueError v) := by
    simp [getConfigRun, hread, hval]
  exact ⟨hval, (main_run_config_error w s (Exc.valueError v) hcr).1,
    (main_run_config_error w s (Exc.valueError v) hcr).2.1⟩

/-- Collaborators whose configuration file has a malformed
`max_batch_size`. -/
def c10World : World :=
  { baseWorld with
    readFile := fun _ =>
      Except.ok [("region", "us-east-1"), ("cluster_name", "hpc"), ("max_batch_size", "abc")] }

theorem c10_witness :
    getConfigVal [("region", "us-east-1"), ("cluster_name", "hpc"),
        ("max_batch_size", "abc")] = Except.error (Exc.valueError "abc") ∧
      (main_run c10World "node-9").1 = 0 ∧
      (main_run c10World "node-9").2.filter isSetNodesDownCall =
        [Event.setNodesDownAndPowerSaveCall (NodeArg.expr "node-9") resumeFailureReason] :=
  c10_malformed_optional_raises_then_reconciles c10World "node-9" "abc" "us-east-1" "hpc"
    [("region", "us-east-1"), ("cluster_name", "hpc"), ("max_batch_size", "abc")]
    (by decide) (by decide) (by decide) (Or.inl ⟨by decide, by decide⟩)
